import Mathlib

/-!
# WhiteboardApp: the `core` extension module

Shallow embedding of `src/core/bindings.cpp`.  The whole translation unit is

    PYBIND11_MODULE(core, m) {
        // Future Vulkan bindings will go here
        // Example: m.def("render", &renderFunction);
    }

that is, one registration of a module called `core` whose initialisation body
holds two comments and no statement.

The module object `m` is mutable state in C++; here it is passed explicitly:
the body is a function from the module state before to the module state after,
inside `Except` so that a raised exception would be visible as `.error`.
-/

namespace WhiteboardApp

/-! ## Data model -/

/-- What a name of a module can be bound to.  `function` is what a call
`m.def(name, &impl)` would bind (the form shown in the comment on line 10 of
bindings.cpp), `attribute` what an assignment `m.attr(name) = value` would. -/
inductive Member where
  | function (impl : String)
  | attribute (value : String)
  deriving DecidableEq, Repr

/-- A member is callable exactly when it was bound as a function. -/
def Member.isCallable : Member → Bool
  | .function _ => true
  | .attribute _ => false

/-- State of a module object (the `m` of the source): the name it was created
under and its member table, most recent binding first. -/
structure Module where
  name : String
  members : List (String × Member)
  deriving DecidableEq, Repr

/-- Names of the callable operations a module exposes. -/
def Module.callables (m : Module) : List String :=
  (m.members.filter (fun e => e.2.isCallable)).map Prod.fst

/-- An exception escaping an initialisation body. -/
inductive InitError where
  | raised (what : String)
  deriving DecidableEq, Repr

/-- Type of an initialisation body: it receives the module state and either
raises or hands back the state it leaves behind. -/
abbrev InitBody := Module → Except InitError Module

/-- What one use of `PYBIND11_MODULE` declares: a module name and the body to
run on the module object at load time. -/
structure Registration where
  name : String
  init : InitBody

/-! ## Operations -/

/-- A freshly created module object: it carries its name and an empty member
table. -/
def Module.create (name : String) : Module :=
  { name := name, members := [] }

/-- Modelled from the spec: the definition of `PYBIND11_MODULE(name, variable)`
lives in the pybind11 header, which is not part of the repository.  Section 4.1
of the spec describes its effect as registering "a named extension module with
the hosting runtime so that future native functions can be attached to it":
the first argument, taken as a string, is the name of the module, and the
braces after it are the body run on the module object `variable`. -/
def PYBIND11_MODULE (name : String) (body : InitBody) : Registration :=
  { name := name, init := body }

/-- Body of `PYBIND11_MODULE(core, m) { ... }`, bindings.cpp lines 8 to 11.
Between the braces there are two comments and no statement, so control falls
through: nothing is raised and `m` is what it was on entry. -/
def pybind11_init_core (m : Module) : Except InitError Module :=
  pure m

/-- Registration made by line 8 of bindings.cpp: `PYBIND11_MODULE(core, m)`. -/
def core : Registration :=
  PYBIND11_MODULE "core" pybind11_init_core

/-- Modelled from the spec: the entry point the hosting runtime calls to load a
registered module is generated by pybind11, outside the repository.  By section
4.1 of the spec the module "becomes importable under a fixed name": a fresh
module object is created under the registered name and the body is run on it. -/
def Registration.PyInit (r : Registration) : Except InitError Module :=
  r.init (Module.create r.name)

/-! ## Properties -/

/-- C1: running the initialisation body of `core` on a freshly created, empty
module object succeeds and leaves a module whose member table is empty, so the
loaded module exposes no callable operation.  This holds for the module the
entry point of `core` creates and for a fresh module of any other name. -/
theorem core_init_registers_nothing :
    (∃ m, core.PyInit = .ok m ∧ m.members = [] ∧ m.callables = []) ∧
    ∀ name : String, ∃ m, pybind11_init_core (Module.create name) = .ok m ∧
      m.members = [] ∧ m.callables = [] :=
  ⟨⟨Module.create "core", rfl, rfl, rfl⟩, fun name => ⟨Module.create name, rfl, rfl, rfl⟩⟩

/-- C2: the registration of the extension module carries the name "core", a
closed constant that takes no input and no host state; and whenever the entry
point of `core` yields a module, that module bears the name "core". -/
theorem core_name_fixed :
    core.name = "core" ∧ ∀ m : Module, core.PyInit = .ok m → m.name = "core" :=
  ⟨rfl, fun m hm => by cases hm; rfl⟩

/-- Instance of C2 at the module the entry point of `core` builds. -/
theorem core_name_fixed_witness :
    core.PyInit = .ok (Module.create "core") ∧ (Module.create "core").name = "core" :=
  ⟨rfl, core_name_fixed.2 (Module.create "core") rfl⟩

/-- C3: for every module state, the initialisation body of `core` returns that
same state (same name, same member table) and never returns an error. -/
theorem core_init_identity (m : Module) :
    core.init m = .ok m ∧ ∀ e : InitError, core.init m ≠ .error e :=
  ⟨rfl, fun e hc => by cases hc⟩

end WhiteboardApp
